import Mathlib

/-!
Shallow embedding of `src/reactor/main.py` (Reactor Monitoring System) and
verification of its specification claims.

Modelling conventions:
* Python floats are modelled as rationals (all inputs exercised here are exactly
  representable, and the arithmetic involved -- `* 10`, `int()`, `min` -- is exact).
* `datetime.now()` instants are abstracted as naturals supplied explicitly at each call.
* Stateful code is embedded as explicit state-passing over record types mirroring
  `DataManager` and `ConnectionManager`; fallible code returns `Except`/`Option`.
* The cooperative (asyncio) scheduler is modelled where a claim needs it: each awaited
  send inside the `control_command` fan-out is a suspension point at which a concurrent
  registry mutation may run (`MutSchedule`).
* Library behavior the code relies on is modelled from the libraries' documented
  semantics: pydantic v2's `model_validate_json` error class, CPython's `struct.pack`
  arity check and dict-iterator size guard, and polars' dtype inference for dict rows
  together with the strict (non-coercing) vertical `pl.concat`.
-/

namespace Reactor

/-- A `datetime.now()` instant, abstracted. -/
abbrev Time := Nat

/-- The pydantic type `bool | str` of the `status` field. -/
inductive BoolOrStr where
  | ofBool (b : Bool)
  | ofStr (s : String)
deriving DecidableEq

/-- Python truthiness of a `bool | str` value (`1 if data.status else 0` uses it):
a bool is itself, a string is truthy iff nonempty. -/
def BoolOrStr.truthy : BoolOrStr → Bool
  | .ofBool b => b
  | .ofStr s => s != ""

/-- `ReactorDataModel` (main.py lines 36-45), with its pydantic field defaults.
Floats are modelled as rationals, `alert_status : int` as an integer. -/
structure ReactorDataModel where
  timestamp : Option Time := none
  temperature : ℚ := 0
  fuel_level : ℚ := 0
  coolant_level : ℚ := 0
  waste_level : ℚ := 0
  status : BoolOrStr := .ofBool false
  burn_rate : ℚ := 0
  actual_burn_rate : ℚ := 0
  alert_status : ℤ := 0
deriving DecidableEq

/-- The `value` field of `ControlCommand`: `str | int | float | bool | None`. -/
inductive CmdValue where
  | ofStr (s : String)
  | ofInt (i : ℤ)
  | ofFloat (q : ℚ)
  | ofBool (b : Bool)
deriving DecidableEq

/-- `ControlCommand` (main.py lines 48-50). -/
structure ControlCommand where
  command : String
  value : Option CmdValue := none
deriving DecidableEq

/-- Python `int()` applied to a numeric value: truncation toward zero. -/
def pyInt (q : ℚ) : ℤ := if 0 ≤ q then ⌊q⌋ else ⌈q⌉

/-- One scaled telemetry field as computed inside `send_to_esp8266`
(main.py lines 201-204): `min(int(x * 10), 65535)`. -/
def encodeField (q : ℚ) : ℤ := min (pyInt (q * 10)) 65535

/-- The status byte of the packet: `1 if data.status else 0` (main.py line 205). -/
def statusByte (s : BoolOrStr) : ℤ := if s.truthy then 1 else 0

/-- A `struct` format code: `B` (unsigned byte) or `H` (big-endian unsigned short). -/
inductive FmtCode where
  | B
  | H
deriving DecidableEq

/-- The format string `"!BHHHHBB"` of main.py line 199: seven fields, 11 bytes. -/
def packFormat : List FmtCode := [.B, .H, .H, .H, .H, .B, .B]

/-- Packing of a single value under one format code, with CPython's range checks;
`H` is emitted big-endian as two bytes. -/
def packOne : FmtCode → ℤ → Except String (List Nat)
  | .B, v =>
    if 0 ≤ v ∧ v ≤ 255 then .ok [v.toNat]
    else .error "ubyte format requires 0 <= number <= 255"
  | .H, v =>
    if 0 ≤ v ∧ v ≤ 65535 then .ok [v.toNat / 256, v.toNat % 256]
    else .error "ushort format requires 0 <= number <= 65535"

/-- Packing of a list of values against a list of format codes, one to one. -/
def packFields : List FmtCode → List ℤ → Except String (List Nat)
  | [], [] => .ok []
  | c :: cs, v :: vs => do
    let b ← packOne c v
    let rest ← packFields cs vs
    pure (b ++ rest)
  | _, _ => .error "arity mismatch"

/-- `struct.pack`: CPython first checks the argument count against the format string
and raises `struct.error` ("pack expected N items for packing") on a mismatch,
before converting any value. -/
def structPack (fmt : List FmtCode) (vals : List ℤ) : Except String (List Nat) :=
  if fmt.length = vals.length then packFields fmt vals
  else .error "pack expected 7 items for packing"

/-- Lowercase hexadecimal digit. -/
def hexDigit (n : Nat) : Char := if n < 10 then Char.ofNat (48 + n) else Char.ofNat (87 + n)

/-- Lowercase two-digit hexadecimal rendering of one byte (`bytes.hex()` per byte). -/
def byteToHex (b : Nat) : String := String.mk [hexDigit (b / 16), hexDigit (b % 16)]

/-- `packet.hex()`: lowercase hexadecimal string of a byte sequence. -/
def bytesToHex (bs : List Nat) : String := String.join (bs.map byteToHex)

/-- A socketio event as emitted by `sio.emit(event, \x7b"data": ...\x7d)`. -/
structure EmittedEvent where
  event : String
  data : String
deriving DecidableEq

/-- The eight data arguments passed to `struct.pack` in `send_to_esp8266`
(main.py lines 200-207): header, four scaled fields, status, alert, checksum. -/
def packetValues (d : ReactorDataModel) : List ℤ :=
  [0xAA, encodeField d.temperature, encodeField d.fuel_level,
   encodeField d.coolant_level, encodeField d.waste_level,
   statusByte d.status, d.alert_status, 0x55]

/-- `send_to_esp8266` (main.py lines 194-215): pack the reading with
`struct.pack("!BHHHHBB", ...)` and emit the hex string as a `reactor_data` event.
The whole body is wrapped in `try/except Exception`, which logs and swallows any
failure, so the result is `none` whenever packing raises. -/
def send_to_esp8266 (d : ReactorDataModel) : Option EmittedEvent :=
  match structPack packFormat (packetValues d) with
  | .error _ => none
  | .ok bytes => some ⟨"reactor_data", bytesToHex bytes⟩

/-- The polars dtypes occurring in this program: the dtypes of the schema declared
in `_load_or_initialize_log` (main.py lines 64-74) and the dtypes polars infers
when building a frame from `model_dump()` dicts. -/
inductive PDType where
  | datetime
  | float32
  | float64
  | boolean
  | string
  | uint8
  | int64
  | null
deriving DecidableEq

/-- The explicit schema `_load_or_initialize_log` declares for a fresh durable
table (main.py lines 64-74): Float32 for the six float columns, Boolean for
status, UInt8 for alert_status. -/
def declaredSchema : List (String × PDType) :=
  [("timestamp", .datetime), ("temperature", .float32), ("fuel_level", .float32),
   ("coolant_level", .float32), ("waste_level", .float32), ("status", .boolean),
   ("burn_rate", .float32), ("actual_burn_rate", .float32), ("alert_status", .uint8)]

/-- A polars DataFrame over the `ReactorDataModel` columns: its schema (column
name and dtype, in column order) and its rows. Every row in this program is the
`model_dump()` record of a reading, so rows are kept as readings. -/
structure PolarsFrame where
  schema : List (String × PDType)
  rows : List ReactorDataModel
deriving DecidableEq

/-- Whether a reading's `status` value is the bool alternative (vs the str one). -/
def statusIsBool (r : ReactorDataModel) : Bool :=
  match r.status with
  | .ofBool _ => true
  | .ofStr _ => false

/-- The dtype polars infers for the `timestamp` column of `model_dump()` rows:
`datetime` objects give Datetime; an all-`None` column infers as Null. -/
def inferTimestampDType (rows : List ReactorDataModel) : PDType :=
  if rows.any (fun r => r.timestamp.isSome) then .datetime else .null

/-- The dtype polars infers for the `status` column (`bool | str` values): Boolean
when every row holds a bool, String when every row holds a str; under the default
strict inference, mixed bool/str values make `pl.DataFrame` raise. -/
def inferStatusDType (rows : List ReactorDataModel) : Except String PDType :=
  if rows.all (fun r => statusIsBool r) then .ok .boolean
  else if rows.all (fun r => !statusIsBool r) then .ok .string
  else .error "TypeError: unexpected value while building Series"

/-- The schema polars infers for `pl.DataFrame([item.model_dump() for item in buffer])`
(main.py line 92): Python floats infer as Float64 (never Float32), Python ints as
Int64 (never UInt8), and `status` as in `inferStatusDType`. -/
def inferredSchema (rows : List ReactorDataModel) :
    Except String (List (String × PDType)) :=
  match inferStatusDType rows with
  | .error e => .error e
  | .ok st =>
    .ok [("timestamp", inferTimestampDType rows), ("temperature", .float64),
         ("fuel_level", .float64), ("coolant_level", .float64),
         ("waste_level", .float64), ("status", st), ("burn_rate", .float64),
         ("actual_burn_rate", .float64), ("alert_status", .int64)]

/-- `pl.DataFrame([item.model_dump() ...])`: build a frame with the inferred
schema, or raise during construction (mixed-type status column). -/
def mkDataFrame (rows : List ReactorDataModel) : Except String PolarsFrame :=
  match inferredSchema rows with
  | .error e => .error e
  | .ok sch => .ok ⟨sch, rows⟩

/-- `pl.concat([a, b])` with the default strict `how="vertical"`: it does not
coerce dtypes, so it appends the rows only when the schemas agree exactly and
raises `SchemaError` otherwise (even when one side has zero rows). -/
def plConcat (a b : PolarsFrame) : Except String PolarsFrame :=
  if a.schema = b.schema then .ok ⟨a.schema, a.rows ++ b.rows⟩
  else .error "SchemaError"

/-- The outcome of running a fallible Python block against a state: either it
completes with the new state, or an exception propagates to the caller with the
state as it was at the raise point. -/
inductive PyOutcome (σ : Type) where
  | ok (s : σ)
  | raised (err : String) (s : σ)

/-- The state after an outcome, whether it completed or raised. -/
def PyOutcome.state {σ : Type} : PyOutcome σ → σ
  | .ok s => s
  | .raised _ s => s

/-- The state of `DataManager` (main.py lines 54-60): latest reading, in-memory
buffer, and the in-memory durable table (`data_log`), a polars frame carrying its
schema. -/
structure DataManagerState where
  reactor_data : ReactorDataModel
  data_buffer : List ReactorDataModel
  data_log : PolarsFrame
deriving DecidableEq

/-- `reactor_data.model_copy(update={"timestamp": datetime.now()})` (main.py line 83):
a fresh instance equal to the input except for the freshly assigned timestamp. -/
def stampNow (r : ReactorDataModel) (now : Time) : ReactorDataModel :=
  {r with timestamp := some now}

/-- `DataManager.add_log_entry` (main.py lines 81-85): append the freshly stamped
copy to the buffer. -/
def add_log_entry (s : DataManagerState) (r : ReactorDataModel) (now : Time) :
    DataManagerState :=
  {s with data_buffer := s.data_buffer ++ [stampNow r now]}

/-- `DataManager.flush_buffer_to_log` (main.py lines 87-95): if the buffer is
empty, return early; otherwise build `new_data` from the buffered dicts (which may
itself raise), `pl.concat` it onto `data_log` (which raises `SchemaError` on any
dtype mismatch), and only then clear the buffer. An exception leaves both the
durable table and the buffer untouched and propagates to the caller. -/
def flush_buffer_to_log (s : DataManagerState) : PyOutcome DataManagerState :=
  if s.data_buffer = [] then .ok s
  else
    match mkDataFrame s.data_buffer with
    | .error e => .raised e s
    | .ok newData =>
      match plConcat s.data_log newData with
      | .error e => .raised e s
      | .ok combined => .ok {s with data_log := combined, data_buffer := []}

/-- An opaque-to-the-registry outbound websocket transport handle; `sendOk` records
whether `send_text` on it succeeds or raises. -/
structure WSHandle where
  sendOk : Bool
deriving DecidableEq

/-- The state of `ConnectionManager` (main.py lines 106-110): the producer table as
an insertion-ordered association list (a Python dict), plus the consumer flag. -/
structure ConnectionManagerState where
  computercraft_connections : List (String × WSHandle)
  esp8266_connected : Bool
deriving DecidableEq

/-- Python `d[k] = v` on a dict: replace in place when the key is present,
otherwise append at the end (insertion order). -/
def dictInsert (t : List (String × WSHandle)) (k : String) (v : WSHandle) :
    List (String × WSHandle) :=
  if t.any (fun p => p.1 == k) then t.map (fun p => if p.1 == k then (k, v) else p)
  else t ++ [(k, v)]

/-- `ConnectionManager.add_computercraft` (main.py lines 112-114). -/
def add_computercraft (cs : ConnectionManagerState) (cid : String) (ws : WSHandle) :
    ConnectionManagerState :=
  {cs with computercraft_connections := dictInsert cs.computercraft_connections cid ws}

/-- `ConnectionManager.remove_computercraft` (main.py lines 116-119): delete the
entry if present, no-op otherwise. -/
def remove_computercraft (cs : ConnectionManagerState) (cid : String) :
    ConnectionManagerState :=
  {cs with computercraft_connections :=
    cs.computercraft_connections.eraseP (fun p => p.1 == cid)}

/-- `ConnectionManager.set_esp8266_connected` (main.py lines 121-123). -/
def set_esp8266_connected (cs : ConnectionManagerState) (b : Bool) :
    ConnectionManagerState :=
  {cs with esp8266_connected := b}

/-- The whole process state the handlers act on: the connection registry, the data
manager, the parquet file contents, and the trace of socketio events emitted so far. -/
structure SysState where
  conns : ConnectionManagerState
  dm : DataManagerState
  disk : Option PolarsFrame
  emitted : List EmittedEvent
deriving DecidableEq

/-- The `await data_manager.add_log_entry(...)` call as it acts on the whole process
state (it is a method of `DataManager` and touches nothing outside it). -/
def add_log_entry_sys (st : SysState) (r : ReactorDataModel) (now : Time) : SysState :=
  {st with dm := add_log_entry st.dm r now}

/-- `DataManager.save_log_to_disk` (main.py lines 97-103): flush (an exception
from it propagates), then, unless the durable table is empty, write it whole to
the parquet file. `writeOk` supplies the outcome of the external `write_parquet`
call; a storage failure propagates to the caller after the flush already took
effect. -/
def save_log_to_disk (writeOk : Bool) (st : SysState) : PyOutcome SysState :=
  match flush_buffer_to_log st.dm with
  | .raised e dm1 => .raised e {st with dm := dm1}
  | .ok dm1 =>
    if dm1.data_log.rows = [] then .ok {st with dm := dm1}
    else if writeOk then .ok {st with dm := dm1, disk := some dm1.data_log}
    else .raised "OSError" {st with dm := dm1}

/-- The body of `websocket_endpoint` run for one successfully validated reading
(main.py lines 177-182): store it as the latest known state, append a stamped copy
to the log buffer, and, when the consumer is present, attempt the esp8266 send. -/
def ingestReading (st : SysState) (r : ReactorDataModel) (now : Time) : SysState :=
  let st1 : SysState := {st with dm := {st.dm with reactor_data := r}}
  let st2 : SysState := {st1 with dm := add_log_entry st1.dm r now}
  if st2.conns.esp8266_connected then
    {st2 with emitted := st2.emitted ++ (send_to_esp8266 r).toList}
  else st2

/-- The Python exception classes relevant to the websocket handler. -/
inductive PyExc where
  | validationError
  | jsonDecodeError
  | webSocketDisconnect
deriving DecidableEq

/-- An inbound producer text message, given by its parse outcome (`some r` when it
validates as a `ReactorDataModel`, `none` when it does not), with its arrival time. -/
abbrev InboundMsg := Option ReactorDataModel × Time

/-- How the `websocket_endpoint` receive loop ends (or has not ended yet). -/
inductive HandlerOutcome where
  | listening
  | disconnected
  | crashed (e : PyExc)
deriving DecidableEq

/-- Pydantic v2 `ReactorDataModel.model_validate_json`: any failure, whether invalid
JSON or a schema violation, raises `pydantic.ValidationError`; it never raises
`json.JSONDecodeError` (pydantic-core parses the JSON itself). -/
def model_validate_json : Option ReactorDataModel → Except PyExc ReactorDataModel
  | some r => .ok r
  | none => .error .validationError

/-- The receive loop of `websocket_endpoint` (main.py lines 171-190). Per message:
parse; on success run the ingest; the inner `except json.JSONDecodeError` catches
only that class and `continue`s; the outer `except WebSocketDisconnect` removes the
registry entry; any other exception escapes the handler (the task dies and the
connection is torn down without registry cleanup). An exhausted message list with
`endsWithDisconnect = true` models `receive_text` raising `WebSocketDisconnect`. -/
def runReceiveLoop (cid : String) :
    SysState → List InboundMsg → Bool → SysState × HandlerOutcome
  | st, [], endsWithDisconnect =>
    if endsWithDisconnect then
      ({st with conns := remove_computercraft st.conns cid}, .disconnected)
    else (st, .listening)
  | st, (m, now) :: rest, d =>
    match model_validate_json m with
    | .ok r => runReceiveLoop cid (ingestReading st r now) rest d
    | .error e =>
      if e = .jsonDecodeError then runReceiveLoop cid st rest d
      else if e = .webSocketDisconnect then
        ({st with conns := remove_computercraft st.conns cid}, .disconnected)
      else (st, .crashed e)

/-- The `HTTPException` raised by `get_secret_key`. -/
structure HTTPError where
  status_code : Nat
  detail : String
deriving DecidableEq

/-- `get_secret_key` (main.py lines 135-138): reject with a 403 when the supplied
secret differs from the configured one. -/
def get_secret_key (configured : String) (secret : String) : Except HTTPError String :=
  if secret ≠ configured then .error ⟨403, "Invalid secret key"⟩ else .ok secret

/-- The observable result of one producer websocket session: whether the connection
was ever accepted, how it ended, and the final process state. -/
structure SessionResult where
  accepted : Bool
  outcome : Except HTTPError HandlerOutcome
  final : SysState

/-- `websocket_endpoint` (main.py lines 163-190), dependency included: the
`Depends(get_secret_key)` check runs before the handler body, so on a mismatch the
connection is never accepted and the handler body (accept, registry add, loop)
never runs. -/
def websocket_endpoint (configured : String) (secret cid : String) (ws : WSHandle)
    (msgs : List InboundMsg) (endsWithDisconnect : Bool) (st : SysState) :
    SessionResult :=
  match get_secret_key configured secret with
  | .error e => ⟨false, .error e, st⟩
  | .ok _ =>
    let st1 : SysState := {st with conns := add_computercraft st.conns cid ws}
    let res := runReceiveLoop cid st1 msgs endsWithDisconnect
    ⟨true, .ok res.2, res.1⟩

/-- The result of one `control_command` fan-out: which producers the command was
delivered to (in iteration order), whether the dict iterator raised `RuntimeError`
(caught by the handler's outer `except Exception`, aborting the remaining sends),
and the registry table after the fan-out. -/
structure FanOutResult where
  delivered : List String
  runtimeError : Bool
  finalTable : List (String × WSHandle)
deriving DecidableEq

/-- One scheduled concurrent registry mutation per awaited send: `some cid` means
another task runs `remove_computercraft cid` while that send is suspended. -/
abbrev MutSchedule := List (Option String)

/-- Apply one scheduled concurrent mutation to the live table. -/
def applyMut (t : List (String × WSHandle)) : Option String → List (String × WSHandle)
  | none => t
  | some cid => t.eraseP (fun p => p.1 == cid)

/-- The fan-out loop of `control_command` (main.py lines 240-244) over the LIVE
`dict.items()` view. CPython's dict iterator records the dict size at creation and
raises `RuntimeError` at the next `__next__` call once the size has changed; each
send is awaited, so a concurrent mutation may run after it. A send failure on one
target is caught by the inner `except Exception` and only skips that delivery. -/
def fanOutAux (origSize : Nat) :
    List (String × WSHandle) → MutSchedule → List String →
    List (String × WSHandle) → FanOutResult
  | cur, _, acc, [] =>
    if cur.length = origSize then ⟨acc.reverse, false, cur⟩
    else ⟨acc.reverse, true, cur⟩
  | cur, muts, acc, (cid, ws) :: rest =>
    if cur.length = origSize then
      fanOutAux origSize (applyMut cur (muts.headD none)) muts.tail
        (if ws.sendOk then cid :: acc else acc) rest
    else ⟨acc.reverse, true, cur⟩

/-- Fan-out over the live producer table under a schedule of concurrent mutations. -/
def fanOutLive (table : List (String × WSHandle)) (muts : MutSchedule) : FanOutResult :=
  fanOutAux table.length table muts [] table

/-- The producers a fully completed fan-out delivers to: every entry whose transport
send succeeds, in table order. -/
def deliveredOf (table : List (String × WSHandle)) : List String :=
  (table.filter (fun p => p.2.sendOk)).map (fun p => p.1)

/-- The fan-out described by the specification (`listProducers()` returns a frozen
snapshot): iterate a copy taken up front, unaffected by concurrent mutation, while
the mutations still apply to the registry itself. -/
def fanOutSnapshot (table : List (String × WSHandle)) (muts : MutSchedule) :
    FanOutResult :=
  ⟨deliveredOf table, false, muts.foldl applyMut table⟩

/-- `control_command` (main.py lines 233-246): `none` models a payload on which
`ControlCommand.model_validate` raises (the outer `except Exception` logs it and
nothing is sent); a validated command is serialized once and fanned out over the
live table. -/
def control_command (parsed : Option ControlCommand)
    (table : List (String × WSHandle)) (muts : MutSchedule) : FanOutResult :=
  match parsed with
  | none => ⟨[], false, table⟩
  | some _ => fanOutLive table muts

/-- `DataManager.__init__` (main.py lines 55-60) combined with process start:
default latest reading, empty buffer, durable table read from the parquet file
when it exists, else initialized empty with the declared Float32/Boolean/UInt8
schema (`_load_or_initialize_log`, main.py lines 62-79). -/
def initialState (existingDisk : Option PolarsFrame) : SysState :=
  { conns := ⟨[], false⟩
    dm := ⟨{}, [], existingDisk.getD ⟨declaredSchema, []⟩⟩
    disk := existingDisk
    emitted := [] }

/-! Helper lemmas (shared across the claim theorems below). -/

theorem deliveredOf_cons (cid : String) (ws : WSHandle)
    (rest : List (String × WSHandle)) :
    deliveredOf ((cid, ws) :: rest) =
      if ws.sendOk then cid :: deliveredOf rest else deliveredOf rest := by
  by_cases hw : ws.sendOk <;> simp [deliveredOf, List.filter_cons, hw]

theorem fanOutAux_no_muts (n : Nat) (cur : List (String × WSHandle))
    (h : cur.length = n) (pending : List (String × WSHandle)) :
    ∀ acc : List String,
      fanOutAux n cur [] acc pending = ⟨acc.reverse ++ deliveredOf pending, false, cur⟩ := by
  induction pending with
  | nil => intro acc; simp [fanOutAux, h, deliveredOf]
  | cons hd tl ih =>
    intro acc
    obtain ⟨cid, ws⟩ := hd
    simp only [fanOutAux, h, if_pos, List.headD_nil, List.tail_nil, applyMut]
    rw [ih]
    by_cases hw : ws.sendOk <;> simp [hw, deliveredOf_cons]

theorem fanOutLive_no_muts (table : List (String × WSHandle)) :
    fanOutLive table [] = ⟨deliveredOf table, false, table⟩ := by
  simpa using fanOutAux_no_muts table.length table rfl table []

theorem fanOutAux_abort (n : Nat) (cur : List (String × WSHandle))
    (muts : MutSchedule) (acc : List String) (pending : List (String × WSHandle))
    (h : cur.length ≠ n) :
    fanOutAux n cur muts acc pending = ⟨acc.reverse, true, cur⟩ := by
  cases pending with
  | nil => simp [fanOutAux, h]
  | cons hd tl => obtain ⟨cid, ws⟩ := hd; simp [fanOutAux, h]

theorem pyInt_eq_floor {q : ℚ} (h : 0 ≤ q) : pyInt q = ⌊q⌋ := by
  simp [pyInt, h]

theorem flush_schema_mismatch (s : DataManagerState)
    (hsch : s.data_log.schema = declaredSchema) (hb : s.data_buffer ≠ []) :
    ∃ e, flush_buffer_to_log s = PyOutcome.raised e s := by
  cases hst : inferStatusDType s.data_buffer with
  | error e =>
    exact ⟨e, by simp [flush_buffer_to_log, hb, mkDataFrame, inferredSchema, hst]⟩
  | ok st =>
    refine ⟨"SchemaError", ?_⟩
    have hne : s.data_log.schema ≠
        [("timestamp", inferTimestampDType s.data_buffer),
         ("temperature", PDType.float64), ("fuel_level", PDType.float64),
         ("coolant_level", PDType.float64), ("waste_level", PDType.float64),
         ("status", st), ("burn_rate", PDType.float64),
         ("actual_burn_rate", PDType.float64), ("alert_status", PDType.int64)] := by
      rw [hsch]
      simp [declaredSchema]
    simp [flush_buffer_to_log, hb, mkDataFrame, inferredSchema, hst, plConcat, hne]

/-! The claim theorems. -/

/-- C1. The claim says every forwarded reading yields a 12-byte frame
`[0xAA][temp:2][fuel:2][coolant:2][waste:2][status:1][alert:1][0x55]` delivered as a
hex string to the consumer. In the code the format string `"!BHHHHBB"` describes
only 7 fields (11 bytes) while 8 values are passed, so `struct.pack` raises
`struct.error` on every call; the blanket `except` logs it and no `reactor_data`
event is ever emitted: `send_to_esp8266` returns `none` for every reading. -/
theorem claim_C1_no_frame_ever_emitted :
    ∀ d : ReactorDataModel,
      packFormat.length = 7 ∧ (packetValues d).length = 8 ∧ send_to_esp8266 d = none := by
  intro d
  refine ⟨rfl, rfl, ?_⟩
  simp [send_to_esp8266, structPack, packFormat, packetValues]

/-- C2. The claim says a payload that fails to parse as a TelemetryReading is
discarded with a warning, mutates no state, and the connection stays open. In the
code pydantic v2 `model_validate_json` raises `ValidationError` on any failure, but
the handler catches only `json.JSONDecodeError`, so the exception escapes: the
state is indeed left unchanged, but the handler dies (subsequent messages `rest`
are never processed and the registry entry is never cleaned up), instead of
continuing to receive. -/
theorem claim_C2_malformed_payload_kills_handler :
    model_validate_json none = Except.error PyExc.validationError ∧
    ∀ (cid : String) (st : SysState) (t : Time) (rest : List InboundMsg) (d : Bool),
      runReceiveLoop cid st ((none, t) :: rest) d =
        (st, HandlerOutcome.crashed PyExc.validationError) :=
  ⟨rfl, fun _ _ _ _ _ => rfl⟩

/-- C3 counterexample. The claim says each encoded field equals
`round(value * 10)` clamped to [0, 65535]. The code computes
`min(int(value * 10), 65535)`, and `int()` truncates toward zero rather than
rounding: at value 3/4 = 0.75 (within [0, 6553.5] and exactly representable, so
the rational model is exact) the code yields 7 while the claimed rounding yields 8. -/
theorem claim_C3_round_counterexample :
    (0 : ℚ) ≤ 3 / 4 ∧ (3 / 4 : ℚ) ≤ 13107 / 2 ∧
    encodeField (3 / 4) = 7 ∧
    max 0 (min (round ((3 / 4 : ℚ) * 10)) 65535) = 8 ∧
    encodeField (3 / 4) ≠ max 0 (min (round ((3 / 4 : ℚ) * 10)) 65535) := by
  have h3 : encodeField (3 / 4 : ℚ) = 7 := by norm_num [encodeField, pyInt]
  have h4 : round ((3 / 4 : ℚ) * 10) = 8 := by norm_num [round_eq]
  refine ⟨by norm_num, by norm_num, h3, by rw [h4]; norm_num, ?_⟩
  rw [h3, h4]
  norm_num

/-- C3 as amended: for readings whose field values lie in [0, 6553.5], each encoded
16-bit field equals `int(value * 10)` -- truncation toward zero, not rounding --
clamped above to 65535 (which for such values lies in [0, 65535]); hand-decoding
the two big-endian bytes of the field recovers that integer exactly; and a
temperature of 10000.0 encodes as the clamped maximum 65535, not a wraparound. -/
theorem claim_C3_truncated_fields :
    (∀ q : ℚ, 0 ≤ q → q ≤ 13107 / 2 →
      encodeField q = pyInt (q * 10) ∧ 0 ≤ encodeField q ∧ encodeField q ≤ 65535) ∧
    encodeField 10000 = 65535 ∧
    (∀ v : ℤ, 0 ≤ v → v ≤ 65535 →
      packOne FmtCode.H v = Except.ok [v.toNat / 256, v.toNat % 256] ∧
      ((v.toNat / 256 : ℤ) * 256 + (v.toNat % 256 : ℤ) = v)) := by
  refine ⟨?_, by norm_num [encodeField, pyInt], ?_⟩
  · intro q h0 h1
    have hq10 : 0 ≤ q * 10 := by positivity
    have hfl : pyInt (q * 10) = ⌊q * 10⌋ := pyInt_eq_floor hq10
    have hle : q * 10 ≤ 65535 := by linarith
    have hub : ⌊q * 10⌋ ≤ 65535 := by
      calc ⌊q * 10⌋ ≤ ⌊(65535 : ℚ)⌋ := Int.floor_le_floor hle
        _ = 65535 := by norm_num
    have hlb : 0 ≤ ⌊q * 10⌋ := Int.floor_nonneg.mpr hq10
    refine ⟨?_, ?_, ?_⟩
    · simp only [encodeField, hfl]
      exact min_eq_left hub
    · simp only [encodeField, hfl]
      exact le_min hlb (by norm_num)
    · exact min_le_right _ _
  · intro v h0 h1
    refine ⟨by simp [packOne, h0, h1], ?_⟩
    omega

/-- Witness for the amended C3 at value 3/4 and at the scaled field 3502 (the
end-to-end scenario's temperature field). -/
theorem claim_C3_truncated_fields_witness :
    (0 : ℚ) ≤ 3 / 4 ∧ (3 / 4 : ℚ) ≤ 13107 / 2 ∧
    encodeField (3 / 4 : ℚ) = pyInt ((3 / 4 : ℚ) * 10) ∧
    (0 : ℤ) ≤ 3502 ∧ (3502 : ℤ) ≤ 65535 ∧
    packOne FmtCode.H 3502 = Except.ok [(3502 : ℤ).toNat / 256, (3502 : ℤ).toNat % 256] :=
  ⟨by norm_num, by norm_num,
   (claim_C3_truncated_fields.1 (3 / 4) (by norm_num) (by norm_num)).1,
   by norm_num, by norm_num,
   (claim_C3_truncated_fields.2.2 3502 (by norm_num) (by norm_num)).1⟩

/-- C4 counterexample. The claim says the command fan-out iterates over a frozen
snapshot of the producer table, so concurrent registry mutation cannot affect the
iteration. The code iterates the live `dict.items()` view: with producers A, B, C
and producer C disconnecting during the send to A, the dict iterator raises
`RuntimeError` before B is reached -- delivery stops at ["A"] -- whereas the
snapshot semantics the claim describes would deliver to all of A, B, C. -/
theorem claim_C4_snapshot_counterexample :
    control_command (some ⟨"scram", none⟩)
        [("A", ⟨true⟩), ("B", ⟨true⟩), ("C", ⟨true⟩)] [some "C"] ≠
      fanOutSnapshot [("A", ⟨true⟩), ("B", ⟨true⟩), ("C", ⟨true⟩)] [some "C"] ∧
    (control_command (some ⟨"scram", none⟩)
        [("A", ⟨true⟩), ("B", ⟨true⟩), ("C", ⟨true⟩)] [some "C"]).delivered = ["A"] ∧
    (control_command (some ⟨"scram", none⟩)
        [("A", ⟨true⟩), ("B", ⟨true⟩), ("C", ⟨true⟩)] [some "C"]).runtimeError = true ∧
    (fanOutSnapshot [("A", ⟨true⟩), ("B", ⟨true⟩), ("C", ⟨true⟩)]
        [some "C"]).delivered = ["A", "B", "C"] ∧
    (fanOutSnapshot [("A", ⟨true⟩), ("B", ⟨true⟩), ("C", ⟨true⟩)]
        [some "C"]).runtimeError = false := by
  decide

/-- C4 as amended: `control_command` iterates the live connection dict directly,
with no snapshot. With no concurrent mutation the fan-out completes and covers
every producer whose send succeeds; but an effective removal during the first
send's await changes the dict size, so the next iterator step raises
`RuntimeError` (caught by the handler's outer `except`), aborting delivery to all
remaining producers. -/
theorem claim_C4_live_iteration :
    (∀ (cmd : ControlCommand) (table : List (String × WSHandle)),
      control_command (some cmd) table [] = ⟨deliveredOf table, false, table⟩) ∧
    (∀ (cmd : ControlCommand) (a : String) (w : WSHandle)
      (rest : List (String × WSHandle)) (cid : String),
      cid ∈ ((a, w) :: rest).map Prod.fst →
      control_command (some cmd) ((a, w) :: rest) [some cid] =
        ⟨if w.sendOk then [a] else [], true, applyMut ((a, w) :: rest) (some cid)⟩) := by
  constructor
  · intro cmd table
    simp [control_command, fanOutLive_no_muts]
  · intro cmd a w rest cid hmem
    obtain ⟨p, hp, hpc⟩ := List.mem_map.mp hmem
    have hlen : (((a, w) :: rest).eraseP (fun q => q.1 == cid)).length + 1 =
        ((a, w) :: rest).length :=
      List.length_eraseP_add_one hp (by simp [hpc])
    have hne : (applyMut ((a, w) :: rest) (some cid)).length ≠
        ((a, w) :: rest).length := by
      simp only [applyMut]
      omega
    have step1 : control_command (some cmd) ((a, w) :: rest) [some cid] =
        fanOutAux ((a, w) :: rest).length (applyMut ((a, w) :: rest) (some cid)) []
          (if w.sendOk then [a] else []) rest := by
      simp [control_command, fanOutLive, fanOutAux]
    rw [step1, fanOutAux_abort _ _ _ _ _ hne]
    by_cases hw : w.sendOk <;> simp [hw]

/-- Witness for the amended C4: with producers A, B, C all healthy and C removed
during the send to A, only A receives and the fan-out aborts with the iterator
error. -/
theorem claim_C4_live_iteration_witness :
    "C" ∈ ([("A", WSHandle.mk true), ("B", WSHandle.mk true),
        ("C", WSHandle.mk true)]).map Prod.fst ∧
    control_command (some ⟨"scram", none⟩)
        [("A", WSHandle.mk true), ("B", WSHandle.mk true), ("C", WSHandle.mk true)]
        [some "C"] =
      ⟨if (WSHandle.mk true).sendOk then ["A"] else [], true,
        applyMut [("A", WSHandle.mk true), ("B", WSHandle.mk true),
          ("C", WSHandle.mk true)] (some "C")⟩ :=
  ⟨by decide,
    claim_C4_live_iteration.2 ⟨"scram", none⟩ "A" ⟨true⟩ _ "C" (by decide)⟩

/-- C5. Every ingest records into the log buffer a new instance, copied from the
parsed reading, whose timestamp is `now()` assigned at ingest time -- regardless of
any producer-supplied timestamp -- and all of whose other fields are copied from
the reading. -/
theorem claim_C5_fresh_timestamp :
    ∀ (st : SysState) (r : ReactorDataModel) (now : Time),
      (ingestReading st r now).dm.data_buffer = st.dm.data_buffer ++ [stampNow r now] ∧
      (stampNow r now).timestamp = some now ∧
      (stampNow r now).temperature = r.temperature ∧
      (stampNow r now).fuel_level = r.fuel_level ∧
      (stampNow r now).coolant_level = r.coolant_level ∧
      (stampNow r now).waste_level = r.waste_level ∧
      (stampNow r now).status = r.status ∧
      (stampNow r now).burn_rate = r.burn_rate ∧
      (stampNow r now).actual_burn_rate = r.actual_burn_rate ∧
      (stampNow r now).alert_status = r.alert_status := by
  intro st r now
  refine ⟨?_, rfl, rfl, rfl, rfl, rfl, rfl, rfl, rfl, rfl⟩
  by_cases hc : st.conns.esp8266_connected <;> simp [ingestReading, add_log_entry, hc]

/-- C6. A link-establishment attempt whose supplied secret differs from the
configured secret is rejected with a 403 forbidden outcome before the connection
is accepted, and the whole process state (the connection registry included) is
left unchanged. -/
theorem claim_C6_auth_rejected :
    ∀ (configured secret cid : String) (ws : WSHandle) (msgs : List InboundMsg)
      (d : Bool) (st : SysState),
      secret ≠ configured →
      websocket_endpoint configured secret cid ws msgs d st =
        ⟨false, Except.error ⟨403, "Invalid secret key"⟩, st⟩ := by
  intro configured secret cid ws msgs d st h
  simp [websocket_endpoint, get_secret_key, h]

/-- Witness for C6 at a concrete mismatched secret against the default
configuration. -/
theorem claim_C6_auth_rejected_witness :
    "wrong" ≠ "supersecretkey" ∧
    websocket_endpoint "supersecretkey" "wrong" "cc1" ⟨true⟩ [] false (initialState none) =
      ⟨false, Except.error ⟨403, "Invalid secret key"⟩, initialState none⟩ :=
  ⟨by decide, claim_C6_auth_rejected _ _ _ _ _ _ _ (by decide)⟩

/-- C7. During the fan-out of a validated control command (with no concurrent
registry mutation), a send failure on one producer is caught per target and does
not abort the loop: the fan-out never raises, and every registered producer whose
transport send succeeds receives the command. -/
theorem claim_C7_fault_isolation :
    (∀ (cmd : ControlCommand) (table : List (String × WSHandle)),
      (control_command (some cmd) table []).runtimeError = false) ∧
    (∀ (cmd : ControlCommand) (table : List (String × WSHandle)) (cid : String)
      (ws : WSHandle),
      (cid, ws) ∈ table → ws.sendOk = true →
      cid ∈ (control_command (some cmd) table []).delivered) := by
  constructor
  · intro cmd table
    simp [control_command, fanOutLive_no_muts]
  · intro cmd table cid ws hmem hok
    have hcc : control_command (some cmd) table [] = ⟨deliveredOf table, false, table⟩ := by
      simp [control_command, fanOutLive_no_muts]
    rw [hcc]
    exact List.mem_map.mpr ⟨(cid, ws), List.mem_filter.mpr ⟨hmem, by simp [hok]⟩, rfl⟩

/-- Witness for C7: producer A's transport throws on send, producer B's does not;
B still receives the command. -/
theorem claim_C7_fault_isolation_witness :
    ("B", WSHandle.mk true) ∈ [("A", WSHandle.mk false), ("B", WSHandle.mk true)] ∧
    "B" ∈ (control_command (some ⟨"scram", none⟩)
        [("A", WSHandle.mk false), ("B", WSHandle.mk true)] []).delivered :=
  ⟨by decide,
    claim_C7_fault_isolation.2 ⟨"scram", none⟩ _ "B" ⟨true⟩ (by decide) rfl⟩

/-- C8. The claim says that appending A then B and flushing appends them as the
durable table's last two rows and drains the buffer completely. In the code,
`_load_or_initialize_log` declares the fresh table with Float32/Boolean/UInt8
dtypes while `pl.DataFrame([item.model_dump() ...])` infers Float64/Int64 (and
possibly String) from the Python values, and the strict vertical `pl.concat`
does not coerce dtypes: from the program's own initial state every nonempty
flush raises (`SchemaError`, or a construction error for a mixed-type status
column) before the table is assigned or the buffer cleared -- nothing is ever
appended and the buffer is never drained. -/
theorem claim_C8_flush_schema_error :
    ∀ (A B : ReactorDataModel) (tA tB : Time),
      (∃ e, flush_buffer_to_log
              (add_log_entry (add_log_entry (initialState none).dm A tA) B tB) =
            PyOutcome.raised e
              (add_log_entry (add_log_entry (initialState none).dm A tA) B tB)) ∧
      (add_log_entry (add_log_entry (initialState none).dm A tA) B tB).data_log =
        ⟨declaredSchema, []⟩ ∧
      (add_log_entry (add_log_entry (initialState none).dm A tA) B tB).data_buffer =
        [stampNow A tA, stampNow B tB] := by
  intro A B tA tB
  refine ⟨flush_schema_mismatch _ rfl ?_, rfl, ?_⟩ <;>
    simp [add_log_entry, initialState]

/-- C9. Calling `flush()` twice in a row with no intervening append leaves the
durable table unchanged after the second call -- the second call repeats the
first's outcome exactly (on the success path the buffer is empty so the early
return fires; on the error path the state was untouched, so the same exception
recurs) -- and a flush of an empty buffer is a no-op on the whole state. -/
theorem claim_C9_flush_idempotent :
    ∀ s : DataManagerState,
      flush_buffer_to_log (flush_buffer_to_log s).state = flush_buffer_to_log s ∧
      (s.data_buffer = [] → flush_buffer_to_log s = PyOutcome.ok s) ∧
      (flush_buffer_to_log (flush_buffer_to_log s).state).state.data_log =
        (flush_buffer_to_log s).state.data_log := by
  intro s
  have h1 : flush_buffer_to_log (flush_buffer_to_log s).state = flush_buffer_to_log s := by
    by_cases hb : s.data_buffer = []
    · simp [flush_buffer_to_log, hb, PyOutcome.state]
    · cases hmk : mkDataFrame s.data_buffer with
      | error e => simp [flush_buffer_to_log, hb, hmk, PyOutcome.state]
      | ok nd =>
        cases hpc : plConcat s.data_log nd with
        | error e => simp [flush_buffer_to_log, hb, hmk, hpc, PyOutcome.state]
        | ok c => simp [flush_buffer_to_log, hb, hmk, hpc, PyOutcome.state]
  refine ⟨h1, fun hb => by simp [flush_buffer_to_log, hb], by rw [h1]⟩

/-- Witness for C9 at the freshly initialized (empty-buffer) state. -/
theorem claim_C9_flush_idempotent_witness :
    flush_buffer_to_log (flush_buffer_to_log (initialState none).dm).state =
      flush_buffer_to_log (initialState none).dm ∧
    flush_buffer_to_log (initialState none).dm = PyOutcome.ok (initialState none).dm :=
  ⟨(claim_C9_flush_idempotent (initialState none).dm).1,
   (claim_C9_flush_idempotent (initialState none).dm).2.1 rfl⟩

/-- C10. `add_log_entry` appends exactly one freshly stamped copy of the reading to
the in-memory buffer and leaves every other piece of process state unchanged: the
durable table, the latest-known-state slot, the on-disk file, the connection
registry, and the emitted-event trace. -/
theorem claim_C10_append_frame :
    ∀ (st : SysState) (r : ReactorDataModel) (now : Time),
      (add_log_entry_sys st r now).dm.data_buffer
          = st.dm.data_buffer ++ [stampNow r now] ∧
      (add_log_entry_sys st r now).dm.data_log = st.dm.data_log ∧
      (add_log_entry_sys st r now).dm.reactor_data = st.dm.reactor_data ∧
      (add_log_entry_sys st r now).disk = st.disk ∧
      (add_log_entry_sys st r now).conns = st.conns ∧
      (add_log_entry_sys st r now).emitted = st.emitted :=
  fun _ _ _ => ⟨rfl, rfl, rfl, rfl, rfl, rfl⟩

end Reactor
